import Mathlib

/-!
Verification of the tiktap-api job orchestration pipeline (src/index.js).

The source file contains two variants of the service:
  * the remote-assembly variant (Shotstack render + polling), lines 1-328;
  * the local-assembly variant (Pexels download + ffmpeg mux), lines 344-696.
Both are embedded here: definitions suffixed `R` model the remote variant,
definitions suffixed `L` model the local variant.  External HTTP calls,
the ffprobe/ffmpeg subprocesses and Math.random are modelled as explicit
environment parameters; everything else is translated line by line.
-/

namespace TikTap

/-- Job status values written by either variant of processVideo, plus the
two initial states set by the create route (queued remote, pending local). -/
inductive Status where
  | queued
  | pending
  | generating_script
  | generating_voice
  | fetching_footage
  | assembling_video
  | completed
  | failed
deriving DecidableEq, Repr

/-- Position of a status in the forward order of the pipeline; `failed` is
given the largest index since it is terminal. -/
def statusIdx : Status → Nat
  | .queued => 0
  | .pending => 0
  | .generating_script => 1
  | .generating_voice => 2
  | .fetching_footage => 3
  | .assembling_video => 4
  | .completed => 5
  | .failed => 6

/-- One legal transition of the pipeline state machine: either the successor
stage in the forward order, or a jump to `failed` from a non-terminal state. -/
def stepOk (a b : Status) : Prop :=
  (statusIdx b = statusIdx a + 1 ∧ b ≠ Status.failed) ∨
  (b = Status.failed ∧ statusIdx a < 5)

instance : DecidableRel stepOk := fun a b => by
  unfold stepOk
  infer_instance

/-- Result of one external HTTP call: `ok` carries the parsed success payload,
`err` carries the error body text (`await response.text()`). -/
inductive HttpResp (α : Type) where
  | ok (a : α)
  | err (body : String)
deriving DecidableEq

/-- Raw audio bytes (a Buffer in the source). -/
abbrev Audio := List Nat

/-- One entry of a Pexels video_files array. -/
structure VideoFile where
  quality : String
  link : String
deriving DecidableEq

/-- One Pexels search result video. -/
structure Video where
  id : Nat
  video_files : List VideoFile
  duration : Nat
deriving DecidableEq

/-- Clip descriptor built by the remote variant's fetchStockFootage. -/
structure Clip where
  id : Nat
  url : Option String
  duration : Nat
deriving DecidableEq

/-- The url field of a mapped clip:
video.video_files.find(f => f.quality === hd)?.link || video.video_files[0]?.link.
A found file whose link is the empty string is falsy in JS, so the fallback
to the first file applies; `none` models undefined. -/
def clipUrl (v : Video) : Option String :=
  match v.video_files.find? (fun f => f.quality == "hd") with
  | some f => if f.link = "" then (v.video_files.head?).map (fun g => g.link) else some f.link
  | none => (v.video_files.head?).map (fun g => g.link)

/-- data.videos.map(video => ({id, url, duration})) in the remote variant. -/
def toClip (v : Video) : Clip :=
  { id := v.id, url := clipUrl v, duration := v.duration }

/-- Association-list lookup, modelling a JS object-literal property access
that yields undefined for a missing key. -/
def tableLookup (tbl : List (String × String)) (k : String) : Option String :=
  (tbl.find? (fun p => p.1 == k)).map (fun p => p.2)

/-! ## Remote variant (lines 1-328): data model -/

/-- Voice ID mapping of the remote variant. -/
def VOICE_IDS_R : List (String × String) :=
  [("female_1", "21m00Tcm4TlvDq8ikWAM"),
   ("female_2", "ThT5KcBeYPX3keUQqHPh"),
   ("male_1", "pNInz6obpgDQGcFmaJgB")]

/-- VOICE_IDS[voiceType] || VOICE_IDS[female_1] in the remote variant;
`none` models an absent/undefined voice field. -/
def resolveVoiceR (voiceType : Option String) : String :=
  (voiceType.bind (tableLookup VOICE_IDS_R)).getD
    ((tableLookup VOICE_IDS_R "female_1").getD "")

/-- Request parameters destructured from req.body by the remote create route. -/
structure ParamsR where
  script : String
  template : Option String
  voice : Option String
  duration : String
deriving DecidableEq

/-- The remote variant's job record.  Fields that the source initialises to
null or only assigns later are Options; audioBuffer is the in-memory Buffer. -/
structure JobR where
  id : String
  status : Status
  statusMessage : String
  inputScript : String
  template : Option String
  voice : Option String
  duration : String
  generatedScript : Option String
  hasAudio : Bool
  videoUrl : Option String
  createdAt : Nat
  audioBuffer : Option Audio
  clips : Option (List Clip)
deriving DecidableEq

/-- The job record built by POST /api/videos/create in the remote variant. -/
def initJobR (jobId : String) (p : ParamsR) (now : Nat) : JobR :=
  { id := jobId
    status := .queued
    statusMessage := "Video job created..."
    inputScript := p.script
    template := p.template
    voice := p.voice
    duration := p.duration
    generatedScript := none
    hasAudio := false
    videoUrl := none
    createdAt := now
    audioBuffer := none
    clips := none }

/-! ## Remote variant: provider adapters -/

/-- Duration-bucket to word-count mapping of the remote generateScript:
duration === 30s ? 75 : duration === 60s ? 150 : 225. -/
def wordCountR (duration : String) : Nat :=
  if duration = "30s" then 75 else if duration = "60s" then 150 else 225

/-- The OpenAI chat request built by generateScript (remote variant). -/
structure ChatRequest where
  model : String
  systemContent : String
  userContent : String
  max_tokens : Nat
deriving DecidableEq

/-- The request body of the remote generateScript. -/
def chatRequestR (topic duration : String) : ChatRequest :=
  { model := "gpt-4o-mini"
    systemContent :=
      "You are a viral short-form video scriptwriter. Write engaging scripts for TikTok/Reels/Shorts. Start with a hook. Keep it around "
        ++ toString (wordCountR duration) ++ " words. No emojis. Just spoken words."
    userContent := "Write a script about: " ++ topic
    max_tokens := 500 }

/-- Remote generateScript: builds the chat request, sends it, and either
returns the content or throws OpenAI error: body. -/
def generateScriptR (topic duration : String)
    (respond : ChatRequest → HttpResp String) : Except String String :=
  match respond (chatRequestR topic duration) with
  | .ok content => .ok content
  | .err body => .error ("OpenAI error: " ++ body)

/-- The ElevenLabs synthesis request. -/
structure VoiceRequest where
  voiceId : String
  text : String
  model_id : String
  stability : ℚ
  similarity_boost : ℚ
deriving DecidableEq

/-- The request body of the remote generateVoice. -/
def voiceRequestR (script : String) (voiceType : Option String) : VoiceRequest :=
  { voiceId := resolveVoiceR voiceType
    text := script
    model_id := "eleven_monolingual_v1"
    stability := 1/2
    similarity_boost := 3/4 }

/-- Remote generateVoice: resolves the voice id, sends the request, returns
the audio bytes or throws ElevenLabs error: body. -/
def generateVoiceR (script : String) (voiceType : Option String)
    (respond : VoiceRequest → HttpResp Audio) : Except String Audio :=
  match respond (voiceRequestR script voiceType) with
  | .ok audio => .ok audio
  | .err body => .error ("ElevenLabs error: " ++ body)

/-- Splitting a character list at every space, keeping empty segments, as JS
split with a single-space separator does. -/
def splitOnSpaceAux : List Char → List Char → List String
  | [], acc => [String.mk acc.reverse]
  | c :: cs, acc =>
    if c = ' ' then String.mk acc.reverse :: splitOnSpaceAux cs []
    else splitOnSpaceAux cs (c :: acc)

/-- script.split(' ') of the remote fetchStockFootage. -/
def splitWords (s : String) : List String := splitOnSpaceAux s.data []

/-- The search query of the remote fetchStockFootage: the first three words
of the generated script longer than 5 characters, joined by spaces, or
business technology when that join is empty (JS || on the empty string). -/
def keywordsR (script : String) : String :=
  let joined :=
    String.intercalate " " (((splitWords script).filter (fun w => 5 < w.length)).take 3)
  if joined = "" then "business technology" else joined

/-- Remote fetchStockFootage: queries Pexels with the script-derived keywords
and maps each result video to a clip descriptor; a non-ok response throws
Pexels error: body.  Zero search results yield ok with an empty list. -/
def fetchStockFootageR (script : String)
    (respond : String → HttpResp (List Video)) : Except String (List Clip) :=
  match respond (keywordsR script) with
  | .ok videos => .ok (videos.map toClip)
  | .err body => .error ("Pexels error: " ++ body)

/-- One clip of the Shotstack render timeline. -/
structure TimelineClip where
  src : Option String
  trim : Nat
  start : Nat
  length : Nat
  fit : String
deriving DecidableEq

/-- The Shotstack render payload (timeline of up to 3 clips, mp4 1080x1920). -/
structure RenderPayload where
  clips : List TimelineClip
  format : String
  width : Nat
  height : Nat
deriving DecidableEq

/-- clips.slice(0,3).map((clip, index) => ...) of assembleVideo. -/
def timelineClips (clips : List Clip) : List TimelineClip :=
  (clips.take 3).enum.map (fun p =>
    { src := p.2.url, trim := 0, start := p.1 * 10, length := 10, fit := "cover" })

/-- One poll of the Shotstack render status endpoint. -/
structure RenderPoll where
  status : String
  url : String
deriving DecidableEq

/-- The polling loop of assembleVideo, fuelled by the remaining attempt count
(60 at the top call).  Each iteration first awaits a 2000 ms sleep, then
fetches the render status once; the second component counts the attempts
performed (hence also the number of 2-second sleeps). -/
def pollLoop (poll : Nat → RenderPoll) : Nat → Nat → Except String String × Nat
  | _, 0 => (.error "Video rendering timed out", 0)
  | i, fuel + 1 =>
    let r := poll i
    if r.status = "done" then (.ok r.url, 1)
    else if r.status = "failed" then (.error "Video rendering failed", 1)
    else
      let rest := pollLoop poll (i + 1) fuel
      (rest.1, rest.2 + 1)

/-- The fixed sleep, in milliseconds, awaited before each poll attempt. -/
def pollIntervalMs : Nat := 2000

/-- The maximum number of poll attempts of the remote assembleVideo. -/
def maxPollAttempts : Nat := 60

/-- Remote assembleVideo: throws No video clips found on an empty clip list,
submits the render payload (non-ok: Shotstack render error: body), then runs
the 60-attempt poll loop. -/
def assembleVideoR (clips : List Clip)
    (submit : RenderPayload → HttpResp String)
    (poll : Nat → RenderPoll) : Except String String :=
  if clips.length = 0 then .error "No video clips found"
  else
    let payload : RenderPayload :=
      { clips := timelineClips clips, format := "mp4", width := 1080, height := 1920 }
    match submit payload with
    | .err body => .error ("Shotstack render error: " ++ body)
    | .ok _renderId => (pollLoop poll 0 maxPollAttempts).1

/-- The environment of one remote pipeline run: the responses of the four
external services, each a function of the request the code sends. -/
structure EnvR where
  scriptResp : ChatRequest → HttpResp String
  voiceResp : VoiceRequest → HttpResp Audio
  pexelsResp : String → HttpResp (List Video)
  renderSubmit : RenderPayload → HttpResp String
  renderPoll : Nat → RenderPoll

/-- Remote processVideo.  Returns the final job record together with the
ordered list of status values it writes into the store (one entry per
assignment to job.status).  The catch block turns any stage error with
message m into status failed and statusMessage Error: m. -/
def processVideoR (j : JobR) (env : EnvR) : JobR × List Status :=
  let j1 := { j with status := .generating_script,
                     statusMessage := "AI is writing your script..." }
  match generateScriptR j1.inputScript j1.duration env.scriptResp with
  | .error m =>
    ({ j1 with status := .failed, statusMessage := "Error: " ++ m },
     [.generating_script, .failed])
  | .ok script =>
    let j2 := { j1 with generatedScript := some script }
    let j3 := { j2 with status := .generating_voice,
                        statusMessage := "Creating AI voiceover..." }
    match generateVoiceR script j3.voice env.voiceResp with
    | .error m =>
      ({ j3 with status := .failed, statusMessage := "Error: " ++ m },
       [.generating_script, .generating_voice, .failed])
    | .ok audio =>
      let j4 := { j3 with audioBuffer := some audio, hasAudio := true }
      let j5 := { j4 with status := .fetching_footage,
                          statusMessage := "Finding perfect video clips..." }
      match fetchStockFootageR script env.pexelsResp with
      | .error m =>
        ({ j5 with status := .failed, statusMessage := "Error: " ++ m },
         [.generating_script, .generating_voice, .fetching_footage, .failed])
      | .ok clips =>
        let j6 := { j5 with clips := some clips }
        let j7 := { j6 with status := .assembling_video,
                            statusMessage := "Assembling your video..." }
        match assembleVideoR clips env.renderSubmit env.renderPoll with
        | .error m =>
          ({ j7 with status := .failed, statusMessage := "Error: " ++ m },
           [.generating_script, .generating_voice, .fetching_footage,
            .assembling_video, .failed])
        | .ok url =>
          ({ j7 with videoUrl := some url, status := .completed,
                     statusMessage := "Your video is ready!" },
           [.generating_script, .generating_voice, .fetching_footage,
            .assembling_video, .completed])

/-! ## Local variant (lines 344-696): data model -/

/-- Voice ID mapping of the local variant. -/
def VOICE_IDS_L : List (String × String) :=
  [("female_1", "EXAVITQu4vr4xnSDxMaL"),
   ("female_2", "XB0fDUnXU5powFXDhCwa"),
   ("male_1", "TX3LPaxmHKxFdv7VOQHJ")]

/-- VOICE_IDS[voiceType] || VOICE_IDS[female_1] in the local variant. -/
def resolveVoiceL (voiceType : Option String) : String :=
  (voiceType.bind (tableLookup VOICE_IDS_L)).getD
    ((tableLookup VOICE_IDS_L "female_1").getD "")

/-- The local variant's job record.  The create route sets the first eight
fields; the pipeline adds the rest as it progresses. -/
structure JobL where
  id : String
  status : Status
  statusMessage : String
  script : String
  template : Option String
  voice : Option String
  duration : String
  createdAt : Nat
  generatedScript : Option String
  audioPath : Option String
  hasAudio : Bool
  footagePath : Option String
  finalVideoPath : Option String
  videoUrl : Option String
deriving DecidableEq

/-- The job record built by POST /api/videos/create in the local variant.
Request parameters have the same shape in both variants, so `ParamsR` is
reused. -/
def initJobL (jobId : String) (p : ParamsR) (now : Nat) : JobL :=
  { id := jobId
    status := .pending
    statusMessage := "Starting video generation..."
    script := p.script
    template := p.template
    voice := p.voice
    duration := p.duration
    createdAt := now
    generatedScript := none
    audioPath := none
    hasAudio := false
    footagePath := none
    finalVideoPath := none
    videoUrl := none }

/-! ## Local variant: provider adapters -/

/-- Duration-bucket to word-count mapping of the local generateScript:
duration === 30 ? 75 : duration === 60 ? 150 : 225. -/
def wordCountL (duration : String) : Nat :=
  if duration = "30" then 75 else if duration = "60" then 150 else 225

/-- The request body of the local generateScript. -/
def chatRequestL (topic duration : String) : ChatRequest :=
  { model := "gpt-4o-mini"
    systemContent :=
      "You are a viral TikTok script writer. Write engaging, hook-driven scripts that capture attention in the first 2 seconds. Keep it around "
        ++ toString (wordCountL duration) ++ " words. No hashtags, no emojis, just the spoken script."
    userContent := "Write a TikTok script about: " ++ topic
    max_tokens := 500 }

/-- Local generateScript. -/
def generateScriptL (topic duration : String)
    (respond : ChatRequest → HttpResp String) : Except String String :=
  match respond (chatRequestL topic duration) with
  | .ok content => .ok content
  | .err body => .error ("OpenAI error: " ++ body)

/-- The request body of the local generateVoice. -/
def voiceRequestL (script : String) (voiceType : Option String) : VoiceRequest :=
  { voiceId := resolveVoiceL voiceType
    text := script
    model_id := "eleven_multilingual_v2"
    stability := 1/2
    similarity_boost := 3/4 }

/-- Local generateVoice. -/
def generateVoiceL (script : String) (voiceType : Option String)
    (respond : VoiceRequest → HttpResp Audio) : Except String Audio :=
  match respond (voiceRequestL script voiceType) with
  | .ok audio => .ok audio
  | .err body => .error ("ElevenLabs error: " ++ body)

/-- The static template-to-query table of the local fetchStockFootage. -/
def searchTerms : List (String × String) :=
  [("motivational", "motivation success"),
   ("educational", "learning study"),
   ("lifestyle", "lifestyle luxury"),
   ("fitness", "workout gym"),
   ("business", "business office"),
   ("travel", "travel adventure"),
   ("default", "aesthetic cinematic")]

/-- searchTerms[template] || searchTerms[default] in the local variant. -/
def footageQueryL (template : Option String) : String :=
  (template.bind (tableLookup searchTerms)).getD
    ((tableLookup searchTerms "default").getD "")

/-- The parsed Pexels response body of the local variant; `videos` is an
Option because the code checks !data.videos before data.videos.length. -/
structure PexelsData where
  videos : Option (List Video)
deriving DecidableEq

/-- Local fetchStockFootage: looks up the query for the template, queries
Pexels, rejects a non-ok response with Failed to fetch stock footage and an
absent/empty result list with No stock footage found, picks one video at
random (randomPick models Math.floor(Math.random()*length)), selects its hd
or first file, downloads it and returns the local path.  An empty
video_files array makes videoFile.link throw a TypeError in JS, modelled by
the final error branch.  The audio duration argument is accepted but unused,
as in the source. -/
def fetchStockFootageL (template : Option String) (_audioDuration : ℚ) (jobId : String)
    (respond : String → HttpResp PexelsData) (randomPick : Nat) : Except String String :=
  match respond (footageQueryL template) with
  | .err _body => .error "Failed to fetch stock footage"
  | .ok data =>
    match data.videos with
    | none => .error "No stock footage found"
    | some vs =>
      if h : vs.length = 0 then .error "No stock footage found"
      else
        let randomVideo := vs.get ⟨randomPick % vs.length, Nat.mod_lt _ (Nat.pos_of_ne_zero h)⟩
        match (randomVideo.video_files.find? (fun f => f.quality == "hd")).orElse
            (fun _ => randomVideo.video_files.head?) with
        | none => .error "Cannot read properties of undefined"
        | some _videoFile => .ok ("./temp/" ++ jobId ++ "-footage.mp4")

/-- getAudioDuration: runs ffprobe on the audio file and parses its stdout;
any error of the probe subprocess is caught and the default 30 seconds is
returned.  The probe argument carries either the parsed duration or the
error. -/
def getAudioDuration (probe : Except String ℚ) : ℚ :=
  match probe with
  | .ok d => d
  | .error _ => 30

/-- combineAudioVideo: re-probes the audio duration, then runs the ffmpeg
command (loop video input, trim to the probed duration via -t, H.264 + AAC,
map video from input 0 and audio from input 1, -shortest, +faststart).  The
run argument models executing ffmpeg with the given -t trim value; a
non-zero exit becomes Failed to combine audio and video. -/
def combineAudioVideo (_audioPath _videoPath : String) (jobId : String)
    (probe : Except String ℚ) (run : ℚ → Except String Unit) : Except String String :=
  let outputPath := "./temp/" ++ jobId ++ "-final.mp4"
  let audioDuration := getAudioDuration probe
  match run audioDuration with
  | .ok _ => .ok outputPath
  | .error _ => .error "Failed to combine audio and video"

/-- The environment of one local pipeline run: provider responses, the two
ffprobe invocations, the random pick and the ffmpeg invocation. -/
structure EnvL where
  scriptResp : ChatRequest → HttpResp String
  voiceResp : VoiceRequest → HttpResp Audio
  probeVoice : Except String ℚ
  pexelsResp : String → HttpResp PexelsData
  randomPick : Nat
  probeCombine : Except String ℚ
  ffmpegRun : ℚ → Except String Unit

/-- Local processVideo: same shape as the remote one, but the voice stage
writes the audio to disk, an audio-duration probe runs between the voice and
footage stages, and assembly is the local ffmpeg mux.  Returns the final job
record and the ordered list of status values written. -/
def processVideoL (j : JobL) (env : EnvL) : JobL × List Status :=
  let j1 := { j with status := .generating_script,
                     statusMessage := "Creating AI script..." }
  match generateScriptL j1.script j1.duration env.scriptResp with
  | .error m =>
    ({ j1 with status := .failed, statusMessage := "Error: " ++ m },
     [.generating_script, .failed])
  | .ok gs =>
    let j2 := { j1 with generatedScript := some gs }
    let j3 := { j2 with status := .generating_voice,
                        statusMessage := "Creating AI voiceover..." }
    match generateVoiceL gs j3.voice env.voiceResp with
    | .error m =>
      ({ j3 with status := .failed, statusMessage := "Error: " ++ m },
       [.generating_script, .generating_voice, .failed])
    | .ok _audio =>
      let audioPath := "./temp/" ++ j.id ++ "-audio.mp3"
      let j4 := { j3 with audioPath := some audioPath, hasAudio := true }
      let audioDuration := getAudioDuration env.probeVoice
      let j5 := { j4 with status := .fetching_footage,
                          statusMessage := "Finding perfect footage..." }
      match fetchStockFootageL j5.template audioDuration j.id env.pexelsResp env.randomPick with
      | .error m =>
        ({ j5 with status := .failed, statusMessage := "Error: " ++ m },
         [.generating_script, .generating_voice, .fetching_footage, .failed])
      | .ok videoPath =>
        let j6 := { j5 with footagePath := some videoPath }
        let j7 := { j6 with status := .assembling_video,
                            statusMessage := "Assembling your video..." }
        match combineAudioVideo audioPath videoPath j.id env.probeCombine env.ffmpegRun with
        | .error m =>
          ({ j7 with status := .failed, statusMessage := "Error: " ++ m },
           [.generating_script, .generating_voice, .fetching_footage,
            .assembling_video, .failed])
        | .ok finalPath =>
          ({ j7 with finalVideoPath := some finalPath, status := .completed,
                     statusMessage := "Your video is ready!",
                     videoUrl := some ("/api/videos/" ++ j.id ++ "/download") },
           [.generating_script, .generating_voice, .fetching_footage,
            .assembling_video, .completed])

/-! ## Job store and HTTP query surface -/

/-- The in-memory job store (a Map in the source), as an association list. -/
def Store (α : Type) : Type := List (String × α)

/-- jobs.get(jobId): lookup by id. -/
def storeGet {α : Type} : Store α → String → Option α
  | [], _ => none
  | (k0, v0) :: t, k => if k0 == k then some v0 else storeGet t k

/-- jobs.set(jobId, job): replace the binding for the key, or add it. -/
def storeSet {α : Type} (s : Store α) (k : String) (v : α) : Store α :=
  match s, k, v with
  | [], k, v => [(k, v)]
  | (k0, v0) :: t, k, v =>
    if k0 == k then (k, v) :: t else (k0, v0) :: storeSet t k v

/-- Outcome of one HTTP query route: a success payload, or a 404 with the
given error body. -/
inductive ApiResult (α : Type) where
  | ok (a : α)
  | notFound (error : String)
deriving DecidableEq

/-- The remote status route's response body: the job record with the
audioBuffer field stripped (const \x7b audioBuffer, ...jobData \x7d = job). -/
structure JobViewR where
  id : String
  status : Status
  statusMessage : String
  inputScript : String
  template : Option String
  voice : Option String
  duration : String
  generatedScript : Option String
  hasAudio : Bool
  videoUrl : Option String
  createdAt : Nat
  clips : Option (List Clip)
deriving DecidableEq

/-- Projection of a remote job to its status view. -/
def statusViewR (j : JobR) : JobViewR :=
  { id := j.id, status := j.status, statusMessage := j.statusMessage,
    inputScript := j.inputScript, template := j.template, voice := j.voice,
    duration := j.duration, generatedScript := j.generatedScript,
    hasAudio := j.hasAudio, videoUrl := j.videoUrl, createdAt := j.createdAt,
    clips := j.clips }

/-- GET /api/videos/:jobId/status (remote variant). -/
def getStatusR (s : Store JobR) (jobId : String) : ApiResult JobViewR :=
  match storeGet s jobId with
  | none => .notFound "Job not found"
  | some j => .ok (statusViewR j)

/-- GET /api/videos/:jobId/audio (remote variant): 404 unless the job exists
and job.audioBuffer is set. -/
def getAudioR (s : Store JobR) (jobId : String) : ApiResult Audio :=
  match storeGet s jobId with
  | none => .notFound "Audio not found"
  | some j =>
    match j.audioBuffer with
    | none => .notFound "Audio not found"
    | some b => .ok b

/-- GET /api/videos/:jobId/download (remote variant): 404 unless the job
exists and job.videoUrl is truthy (non-null and non-empty); on success it
redirects to the URL. -/
def getDownloadR (s : Store JobR) (jobId : String) : ApiResult String :=
  match storeGet s jobId with
  | none => .notFound "Video not ready"
  | some j =>
    match j.videoUrl with
    | none => .notFound "Video not ready"
    | some u => if u = "" then .notFound "Video not ready" else .ok u

/-- GET /api/videos/:jobId/status (local variant): the whole job record. -/
def getStatusL (s : Store JobL) (jobId : String) : ApiResult JobL :=
  match storeGet s jobId with
  | none => .notFound "Job not found"
  | some j => .ok j

/-- GET /api/videos/:jobId/audio (local variant): 404 unless the job exists
and job.audioPath is truthy; on success it serves the file at the path. -/
def getAudioL (s : Store JobL) (jobId : String) : ApiResult String :=
  match storeGet s jobId with
  | none => .notFound "Audio not found"
  | some j =>
    match j.audioPath with
    | none => .notFound "Audio not found"
    | some p => if p = "" then .notFound "Audio not found" else .ok p

/-- GET /api/videos/:jobId/download (local variant): 404 unless the job
exists and job.finalVideoPath is truthy; on success it serves the file. -/
def getDownloadL (s : Store JobL) (jobId : String) : ApiResult String :=
  match storeGet s jobId with
  | none => .notFound "Video not found"
  | some j =>
    match j.finalVideoPath with
    | none => .notFound "Video not found"
    | some p => if p = "" then .notFound "Video not found" else .ok p

/-- The JSON body returned by POST /api/videos/create. -/
structure CreateResp where
  jobId : String
  status : String
deriving DecidableEq

/-- The synchronous part of POST /api/videos/create (remote variant): build
the initial job, register it, and respond with the job id and queued status.
processVideo is started in the background and not awaited. -/
def createRouteR (s : Store JobR) (jobId : String) (p : ParamsR) (now : Nat) :
    Store JobR × CreateResp :=
  (storeSet s jobId (initJobR jobId p now), { jobId := jobId, status := "queued" })

/-- The background pipeline run of a remote job: fetch the job from the
store and write back the record processVideo produces. -/
def runPipelineR (s : Store JobR) (jobId : String) (env : EnvR) : Store JobR :=
  match storeGet s jobId with
  | none => s
  | some j => storeSet s jobId (processVideoR j env).1

/-- The full effect of one remote create request: the response is produced
by the synchronous part alone; the pipeline only mutates the store. -/
def handleCreateR (s : Store JobR) (jobId : String) (p : ParamsR) (now : Nat)
    (env : EnvR) : Store JobR × CreateResp :=
  let r := createRouteR s jobId p now
  (runPipelineR r.1 jobId env, r.2)

/-- The synchronous part of POST /api/videos/create (local variant). -/
def createRouteL (s : Store JobL) (jobId : String) (p : ParamsR) (now : Nat) :
    Store JobL × CreateResp :=
  (storeSet s jobId (initJobL jobId p now), { jobId := jobId, status := "pending" })

/-- The background pipeline run of a local job. -/
def runPipelineL (s : Store JobL) (jobId : String) (env : EnvL) : Store JobL :=
  match storeGet s jobId with
  | none => s
  | some j => storeSet s jobId (processVideoL j env).1

/-- The full effect of one local create request. -/
def handleCreateL (s : Store JobL) (jobId : String) (p : ParamsR) (now : Nat)
    (env : EnvL) : Store JobL × CreateResp :=
  let r := createRouteL s jobId p now
  (runPipelineL r.1 jobId env, r.2)

/-! ## Helper lemmas -/

/-- A successful table lookup returns one of the table's values. -/
theorem tableLookup_mem {tbl : List (String × String)} {k v : String}
    (h : tableLookup tbl k = some v) : v ∈ tbl.map Prod.snd := by
  unfold tableLookup at h
  rcases hf : tbl.find? (fun p => p.1 == k) with _ | p
  · rw [hf] at h
    simp at h
  · rw [hf] at h
    simp at h
    subst h
    exact List.mem_map_of_mem _ (List.mem_of_find?_eq_some hf)

/-- The poll loop performs at most `fuel` attempts. -/
theorem pollLoop_attempts_le (poll : Nat → RenderPoll) :
    ∀ (fuel i : Nat), (pollLoop poll i fuel).2 ≤ fuel := by
  intro fuel
  induction fuel with
  | zero => intro i; simp [pollLoop]
  | succ n ih =>
    intro i
    simp only [pollLoop]
    split
    · simp
    · split
      · simp
      · simpa using Nat.succ_le_succ (ih (i + 1))

/-- If no attempt in the window observes a terminal render status, the poll
loop exhausts its fuel and times out. -/
theorem pollLoop_timeout (poll : Nat → RenderPoll) :
    ∀ (fuel i : Nat),
      (∀ j, j < fuel → (poll (i + j)).status ≠ "done" ∧ (poll (i + j)).status ≠ "failed") →
      pollLoop poll i fuel = (.error "Video rendering timed out", fuel) := by
  intro fuel
  induction fuel with
  | zero => intro i _; simp [pollLoop]
  | succ n ih =>
    intro i h
    have h0 := h 0 (Nat.succ_pos n)
    simp only [Nat.add_zero] at h0
    simp only [pollLoop, if_neg h0.1, if_neg h0.2]
    have hrest := ih (i + 1) (fun j hj => by
      have := h (j + 1) (Nat.succ_lt_succ hj)
      simpa [Nat.add_assoc, Nat.add_comm 1 j] using this)
    rw [hrest]

/-- If attempt `k` is the first to observe status done, the poll loop stops
there, returns the hosted url, and has performed exactly `k + 1` attempts. -/
theorem pollLoop_done (poll : Nat → RenderPoll) :
    ∀ (k fuel i : Nat), k < fuel →
      (∀ j, j < k → (poll (i + j)).status ≠ "done" ∧ (poll (i + j)).status ≠ "failed") →
      (poll (i + k)).status = "done" →
      pollLoop poll i fuel = (.ok (poll (i + k)).url, k + 1) := by
  intro k
  induction k with
  | zero =>
    intro fuel i hk _ hdone
    rcases fuel with _ | m
    · exact absurd hk (Nat.lt_irrefl 0)
    · simp only [Nat.add_zero] at hdone
      simp [pollLoop, hdone]
  | succ n ih =>
    intro fuel i hk hpre hdone
    rcases fuel with _ | m
    · exact absurd hk (Nat.not_lt_zero _)
    · have h0 := hpre 0 (Nat.succ_pos n)
      simp only [Nat.add_zero] at h0
      simp only [pollLoop, if_neg h0.1, if_neg h0.2]
      have hrec := ih m (i + 1) (Nat.lt_of_succ_lt_succ hk)
        (fun j hj => by
          have := hpre (j + 1) (Nat.succ_lt_succ hj)
          simpa [Nat.add_assoc, Nat.add_comm 1 j] using this)
        (by simpa [Nat.add_assoc, Nat.add_comm 1 n] using hdone)
      rw [hrec]
      simp [Nat.add_assoc, Nat.add_comm 1 n]

/-- If attempt `k` is the first to observe status failed, the poll loop stops
there with the render-failed error after exactly `k + 1` attempts. -/
theorem pollLoop_failed (poll : Nat → RenderPoll) :
    ∀ (k fuel i : Nat), k < fuel →
      (∀ j, j < k → (poll (i + j)).status ≠ "done" ∧ (poll (i + j)).status ≠ "failed") →
      (poll (i + k)).status = "failed" →
      pollLoop poll i fuel = (.error "Video rendering failed", k + 1) := by
  intro k
  induction k with
  | zero =>
    intro fuel i hk _ hfail
    rcases fuel with _ | m
    · exact absurd hk (Nat.lt_irrefl 0)
    · simp only [Nat.add_zero] at hfail
      have hnd : (poll i).status ≠ "done" := by rw [hfail]; decide
      simp [pollLoop, hfail, hnd]
  | succ n ih =>
    intro fuel i hk hpre hfail
    rcases fuel with _ | m
    · exact absurd hk (Nat.not_lt_zero _)
    · have h0 := hpre 0 (Nat.succ_pos n)
      simp only [Nat.add_zero] at h0
      simp only [pollLoop, if_neg h0.1, if_neg h0.2]
      have hrec := ih m (i + 1) (Nat.lt_of_succ_lt_succ hk)
        (fun j hj => by
          have := hpre (j + 1) (Nat.succ_lt_succ hj)
          simpa [Nat.add_assoc, Nat.add_comm 1 j] using this)
        (by simpa [Nat.add_assoc, Nat.add_comm 1 n] using hfail)
      rw [hrec]

/-- Looking up a key right after setting it returns the stored value. -/
theorem storeGet_set_self {α : Type} (s : Store α) (k : String) (v : α) :
    storeGet (storeSet s k v) k = some v := by
  induction s with
  | nil => simp [storeGet, storeSet]
  | cons p t ih =>
    rcases p with ⟨k0, v0⟩
    by_cases h : k0 == k
    · simp [storeSet, storeGet, h]
    · simp only [storeSet]
      rw [if_neg h]
      simp only [storeGet]
      rw [if_neg h]
      exact ih

/-- Setting one key leaves every other key's binding unchanged. -/
theorem storeGet_set_ne {α : Type} (s : Store α) (k k' : String) (v : α)
    (h : k' ≠ k) : storeGet (storeSet s k v) k' = storeGet s k' := by
  have hbeq : (k == k') = false := by
    simp [Ne.symm h]
  induction s with
  | nil => simp [storeGet, storeSet, hbeq]
  | cons p t ih =>
    rcases p with ⟨k0, v0⟩
    by_cases h0 : k0 == k
    · have hk0 : k0 = k := by simpa using h0
      subst hk0
      simp [storeSet, storeGet, hbeq]
    · simp only [storeSet]
      rw [if_neg h0]
      simp only [storeGet]
      by_cases h1 : k0 == k'
      · simp [h1]
      · rw [if_neg h1, if_neg h1]
        exact ih

/-- A path built under ./temp/ with the -audio.mp3 suffix is never the empty
string (so the local audio route's falsiness check cannot reject it). -/
theorem tempAudioPath_ne_empty (x : String) :
    ("./temp/" ++ x ++ "-audio.mp3") ≠ "" := by
  intro h
  have hl := congrArg String.length h
  simp [String.length_append] at hl
  exact absurd hl.2 (by decide)

/-! ## Claims -/

/-- C7: in the remote assembly strategy, the poll loop after render
submission performs at most 60 attempts, each preceded by a 2000 ms wait; it
returns the hosted url as soon as an attempt observes status done, throws
the render-failed error as soon as an attempt observes status failed, and
throws the timeout error when all 60 attempts pass without a terminal
status — so the loop always terminates.  The last conjunct ties the loop to
assembleVideoR: with a nonempty clip list and a successful submission, the
assembly result is exactly the loop's result. -/
theorem claim7_poll_loop (poll : Nat → RenderPoll) :
    maxPollAttempts = 60 ∧ pollIntervalMs = 2000 ∧
    (pollLoop poll 0 maxPollAttempts).2 ≤ 60 ∧
    ((∀ j, j < 60 → (poll j).status ≠ "done" ∧ (poll j).status ≠ "failed") →
      pollLoop poll 0 maxPollAttempts = (.error "Video rendering timed out", 60)) ∧
    (∀ k, k < 60 →
      (∀ j, j < k → (poll j).status ≠ "done" ∧ (poll j).status ≠ "failed") →
      (poll k).status = "done" →
      pollLoop poll 0 maxPollAttempts = (.ok (poll k).url, k + 1)) ∧
    (∀ k, k < 60 →
      (∀ j, j < k → (poll j).status ≠ "done" ∧ (poll j).status ≠ "failed") →
      (poll k).status = "failed" →
      pollLoop poll 0 maxPollAttempts = (.error "Video rendering failed", k + 1)) ∧
    (∀ (clips : List Clip) (submit : RenderPayload → HttpResp String) (rid : String),
      clips.length ≠ 0 →
      submit { clips := timelineClips clips, format := "mp4",
               width := 1080, height := 1920 } = .ok rid →
      assembleVideoR clips submit poll = (pollLoop poll 0 maxPollAttempts).1) := by
  refine ⟨rfl, rfl, pollLoop_attempts_le poll _ _, ?_, ?_, ?_, ?_⟩
  · intro h
    exact pollLoop_timeout poll 60 0 (fun j hj => by simpa using h j hj)
  · intro k hk hpre hdone
    have := pollLoop_done poll k 60 0 hk
      (fun j hj => by simpa using hpre j hj) (by simpa using hdone)
    simpa using this
  · intro k hk hpre hfail
    have := pollLoop_failed poll k 60 0 hk
      (fun j hj => by simpa using hpre j hj) (by simpa using hfail)
    simpa using this
  · intro clips submit rid hne hsub
    simp [assembleVideoR, hne, hsub]

/-- Witness for C7: a render service that reports done on the sixth attempt
makes the loop return that attempt's url after exactly six attempts. -/
theorem claim7_poll_loop_witness :
    pollLoop (fun i => if i = 5 then { status := "done", url := "https://cdn/video.mp4" }
                       else { status := "rendering", url := "" }) 0 maxPollAttempts =
      (.ok "https://cdn/video.mp4", 6) := by
  have h := (claim7_poll_loop
    (fun i => if i = 5 then { status := "done", url := "https://cdn/video.mp4" }
              else { status := "rendering", url := "" })).2.2.2.2.1 5
    (by decide) (by decide) (by decide)
  simpa using h

/-- C8: each variant's script stage maps the request's duration bucket to a
target word count used in the generation prompt: the short bucket (30s resp.
30) maps to 75 words, the medium bucket (60s resp. 60) to 150 words, and
every other bucket value — in particular the long one — to 225 words; the
system prompt sent to the provider embeds exactly that number. -/
theorem claim8_word_count :
    wordCountR "30s" = 75 ∧ wordCountR "60s" = 150 ∧
    (∀ d : String, d ≠ "30s" → d ≠ "60s" → wordCountR d = 225) ∧
    wordCountL "30" = 75 ∧ wordCountL "60" = 150 ∧
    (∀ d : String, d ≠ "30" → d ≠ "60" → wordCountL d = 225) ∧
    (∀ topic d : String, ∃ pre suf : String,
      (chatRequestR topic d).systemContent = pre ++ toString (wordCountR d) ++ suf) ∧
    (∀ topic d : String, ∃ pre suf : String,
      (chatRequestL topic d).systemContent = pre ++ toString (wordCountL d) ++ suf) := by
  refine ⟨rfl, rfl, ?_, rfl, rfl, ?_, ?_, ?_⟩
  · intro d h1 h2
    simp [wordCountR, h1, h2]
  · intro d h1 h2
    simp [wordCountL, h1, h2]
  · intro topic d
    exact ⟨"You are a viral short-form video scriptwriter. Write engaging scripts for TikTok/Reels/Shorts. Start with a hook. Keep it around ",
           " words. No emojis. Just spoken words.", rfl⟩
  · intro topic d
    exact ⟨"You are a viral TikTok script writer. Write engaging, hook-driven scripts that capture attention in the first 2 seconds. Keep it around ",
           " words. No hashtags, no emojis, just the spoken script.", rfl⟩

/-- Witness for C8: an unrecognised bucket value maps to 225 in both
variants. -/
theorem claim8_word_count_witness :
    wordCountR "90s" = 225 ∧ wordCountL "90" = 225 :=
  ⟨claim8_word_count.2.2.1 "90s" (by decide) (by decide),
   claim8_word_count.2.2.2.2.2.1 "90" (by decide) (by decide)⟩

/-- C9: each variant's voice stage resolves the logical voice key through its
static VOICE_IDS table; any key missing from the table, and an absent key,
resolve to the table's female_1 entry; and the synthesis request is always
made with a voice id drawn from the table. -/
theorem claim9_voice_default :
    resolveVoiceR (some "female_1") = "21m00Tcm4TlvDq8ikWAM" ∧
    resolveVoiceR (some "female_2") = "ThT5KcBeYPX3keUQqHPh" ∧
    resolveVoiceR (some "male_1") = "pNInz6obpgDQGcFmaJgB" ∧
    (∀ k : String, tableLookup VOICE_IDS_R k = none →
      resolveVoiceR (some k) = "21m00Tcm4TlvDq8ikWAM") ∧
    resolveVoiceR none = "21m00Tcm4TlvDq8ikWAM" ∧
    (∀ v : Option String, resolveVoiceR v ∈ VOICE_IDS_R.map Prod.snd) ∧
    resolveVoiceL (some "female_1") = "EXAVITQu4vr4xnSDxMaL" ∧
    resolveVoiceL (some "female_2") = "XB0fDUnXU5powFXDhCwa" ∧
    resolveVoiceL (some "male_1") = "TX3LPaxmHKxFdv7VOQHJ" ∧
    (∀ k : String, tableLookup VOICE_IDS_L k = none →
      resolveVoiceL (some k) = "EXAVITQu4vr4xnSDxMaL") ∧
    resolveVoiceL none = "EXAVITQu4vr4xnSDxMaL" ∧
    (∀ v : Option String, resolveVoiceL v ∈ VOICE_IDS_L.map Prod.snd) ∧
    (∀ (script : String) (v : Option String),
      (voiceRequestR script v).voiceId = resolveVoiceR v) ∧
    (∀ (script : String) (v : Option String),
      (voiceRequestL script v).voiceId = resolveVoiceL v) := by
  refine ⟨by decide, by decide, by decide, ?_, by decide, ?_,
          by decide, by decide, by decide, ?_, by decide, ?_,
          fun _ _ => rfl, fun _ _ => rfl⟩
  · intro k h
    have e : resolveVoiceR (some k) = (tableLookup VOICE_IDS_R "female_1").getD "" := by
      simp [resolveVoiceR, h]
    rw [e]
    decide
  · intro v
    rcases v with _ | k
    · decide
    · rcases h : tableLookup VOICE_IDS_R k with _ | vid
      · have e : resolveVoiceR (some k) = (tableLookup VOICE_IDS_R "female_1").getD "" := by
          simp [resolveVoiceR, h]
        rw [e]
        decide
      · have e : resolveVoiceR (some k) = vid := by simp [resolveVoiceR, h]
        rw [e]
        exact tableLookup_mem h
  · intro k h
    have e : resolveVoiceL (some k) = (tableLookup VOICE_IDS_L "female_1").getD "" := by
      simp [resolveVoiceL, h]
    rw [e]
    decide
  · intro v
    rcases v with _ | k
    · decide
    · rcases h : tableLookup VOICE_IDS_L k with _ | vid
      · have e : resolveVoiceL (some k) = (tableLookup VOICE_IDS_L "female_1").getD "" := by
          simp [resolveVoiceL, h]
        rw [e]
        decide
      · have e : resolveVoiceL (some k) = vid := by simp [resolveVoiceL, h]
        rw [e]
        exact tableLookup_mem h

/-- Witness for C9: the unknown key robot resolves to each variant's default
voice id. -/
theorem claim9_voice_default_witness :
    resolveVoiceR (some "robot") = "21m00Tcm4TlvDq8ikWAM" ∧
    resolveVoiceL (some "robot") = "EXAVITQu4vr4xnSDxMaL" :=
  ⟨claim9_voice_default.2.2.2.1 "robot" (by decide),
   claim9_voice_default.2.2.2.2.2.2.2.2.2.1 "robot" (by decide)⟩

/-- C10: in the local assembly strategy, a failing ffprobe invocation makes
getAudioDuration return the default 30 seconds instead of propagating the
error; combineAudioVideo then trims the output to 30 seconds (the ffmpeg run
receives -t 30); and with every provider succeeding, failing probes alone
never move the job to failed — the pipeline still completes. -/
theorem claim10_probe_default :
    (∀ e : String, getAudioDuration (Except.error e) = 30) ∧
    (∀ (e a v jid : String) (run : ℚ → Except String Unit),
      combineAudioVideo a v jid (Except.error e) run =
        match run 30 with
        | .ok _ => .ok ("./temp/" ++ jid ++ "-final.mp4")
        | .error _ => .error "Failed to combine audio and video") ∧
    (∀ (e a v jid : String) (run : ℚ → Except String Unit),
      run 30 = .ok () →
      combineAudioVideo a v jid (Except.error e) run =
        .ok ("./temp/" ++ jid ++ "-final.mp4")) ∧
    (∀ (j : JobL) (env : EnvL) (e1 e2 gs : String) (audio : Audio) (vp : String),
      env.probeVoice = .error e1 →
      env.probeCombine = .error e2 →
      generateScriptL j.script j.duration env.scriptResp = .ok gs →
      generateVoiceL gs j.voice env.voiceResp = .ok audio →
      fetchStockFootageL j.template 30 j.id env.pexelsResp env.randomPick = .ok vp →
      env.ffmpegRun 30 = .ok () →
      (processVideoL j env).1.status = .completed) := by
  refine ⟨fun _ => rfl, ?_, ?_, ?_⟩
  · intro e a v jid run
    rfl
  · intro e a v jid run h
    simp [combineAudioVideo, getAudioDuration, h]
  · intro j env e1 e2 gs audio vp hp1 hp2 hs hv hf hr
    simp only [processVideoL, hs, hv, hp1, getAudioDuration] at *
    simp only [hf]
    simp [combineAudioVideo, hp2, getAudioDuration, hr]

/-- Witness for C10: with both probes failing and every provider succeeding,
a concrete local job completes and its ffmpeg trim is 30 seconds. -/
theorem claim10_probe_default_witness :
    getAudioDuration (Except.error "ffprobe exited with code 1") = 30 ∧
    (processVideoL
      { id := "j1", status := .pending, statusMessage := "Starting video generation...",
        script := "coffee", template := some "lifestyle", voice := some "female_1",
        duration := "30", createdAt := 0, generatedScript := none, audioPath := none,
        hasAudio := false, footagePath := none, finalVideoPath := none, videoUrl := none }
      { scriptResp := fun _ => .ok "a generated script",
        voiceResp := fun _ => .ok [7, 7, 7],
        probeVoice := .error "ffprobe exited with code 1",
        pexelsResp := fun _ => .ok { videos := some [{ id := 3, video_files := [{ quality := "hd", link := "https://pexels/v.mp4" }], duration := 12 }] },
        randomPick := 0,
        probeCombine := .error "ffprobe exited with code 1",
        ffmpegRun := fun _ => .ok () }).1.status = .completed := by
  refine ⟨claim10_probe_default.1 "ffprobe exited with code 1", ?_⟩
  exact claim10_probe_default.2.2.2 _ _ "ffprobe exited with code 1"
    "ffprobe exited with code 1" "a generated script" [7, 7, 7]
    "./temp/j1-footage.mp4" rfl rfl rfl rfl rfl rfl

/-- C5 counterexample: in the remote variant the stock-video search query is
derived from the generated script, not from the template: two scripts give
two different queries, and the query is not one of the static table's
values.  This falsifies the claim that, for every job, the query comes from
the template via the static lookup table and depends on no other input. -/
theorem claim5_counterexample :
    keywordsR "wonderful elephants forever run" = "wonderful elephants forever" ∧
    keywordsR "a tiny cat" = "business technology" ∧
    keywordsR "wonderful elephants forever run" ≠ keywordsR "a tiny cat" ∧
    keywordsR "wonderful elephants forever run" ∉ searchTerms.map Prod.snd := by
  refine ⟨by decide, by decide, by decide, by decide⟩

/-- C5 amended: only the local variant derives the footage query from the
template via the static searchTerms table (with default aesthetic cinematic,
independent of other inputs); the remote variant instead derives it from the
generated script — the query is either the fallback business technology or a
join of at most three of the script's words longer than five characters. -/
theorem claim5_amended :
    footageQueryL (some "motivational") = "motivation success" ∧
    footageQueryL (some "educational") = "learning study" ∧
    footageQueryL (some "lifestyle") = "lifestyle luxury" ∧
    footageQueryL (some "fitness") = "workout gym" ∧
    footageQueryL (some "business") = "business office" ∧
    footageQueryL (some "travel") = "travel adventure" ∧
    footageQueryL none = "aesthetic cinematic" ∧
    (∀ t : String, tableLookup searchTerms t = none →
      footageQueryL (some t) = "aesthetic cinematic") ∧
    (∀ s : String, keywordsR s = "business technology" ∨
      ∃ ws : List String, ws ≠ [] ∧ ws.length ≤ 3 ∧
        (∀ w ∈ ws, w ∈ splitWords s ∧ 5 < w.length) ∧
        keywordsR s = String.intercalate " " ws) := by
  refine ⟨by decide, by decide, by decide, by decide, by decide, by decide, by decide,
          ?_, ?_⟩
  · intro t h
    have e : footageQueryL (some t) = (tableLookup searchTerms "default").getD "" := by
      simp [footageQueryL, h]
    rw [e]
    decide
  · intro s
    by_cases h :
      String.intercalate " " (((splitWords s).filter (fun w => 5 < w.length)).take 3) = ""
    · left
      simp [keywordsR, h]
    · right
      refine ⟨((splitWords s).filter (fun w => 5 < w.length)).take 3, ?_, ?_, ?_, ?_⟩
      · intro hnil
        rw [hnil] at h
        simp [String.intercalate] at h
      · exact List.length_take_le 3 _
      · intro w hw
        have hmem := List.take_subset 3 _ hw
        rw [List.mem_filter] at hmem
        exact ⟨hmem.1, by simpa using hmem.2⟩
      · simp [keywordsR, h]

/-- Witness for C5 amended: an unknown template falls back to the default
query in the local variant. -/
theorem claim5_amended_witness :
    footageQueryL (some "cooking") = "aesthetic cinematic" :=
  claim5_amended.2.2.2.2.2.2.2.1 "cooking" (by decide)

/-- C6 counterexample: in the remote variant, when the footage provider
returns zero results the footage fetch does NOT fail with a not-found
error — it succeeds with an empty clip list (the not-found error is only
thrown later, by the assembly stage).  This falsifies the claim that, for
every job with zero provider results, the footage fetch itself fails. -/
theorem claim6_counterexample :
    fetchStockFootageR "some generated script" (fun _q => HttpResp.ok []) =
      Except.ok ([] : List Clip) := rfl

/-- C6 amended: when the footage provider returns zero results the job ends
failed with a not-found message and the earlier audio artifact stays
retrievable, but the two variants fail in different places: the local
fetchStockFootage itself throws No stock footage found, while the remote
one succeeds with an empty clip list and the assembly stage then throws No
video clips found. -/
theorem claim6_amended :
    (∀ (j : JobR) (env : EnvR) (gs : String) (audio : Audio),
      generateScriptR j.inputScript j.duration env.scriptResp = .ok gs →
      generateVoiceR gs j.voice env.voiceResp = .ok audio →
      env.pexelsResp (keywordsR gs) = .ok [] →
      (processVideoR j env).1.status = .failed ∧
      (processVideoR j env).1.statusMessage = "Error: No video clips found" ∧
      (processVideoR j env).1.hasAudio = true ∧
      (processVideoR j env).1.audioBuffer = some audio ∧
      (∀ (st : Store JobR) (k : String),
        getAudioR (storeSet st k (processVideoR j env).1) k = .ok audio)) ∧
    (∀ (j : JobL) (env : EnvL) (gs : String) (audio : Audio),
      generateScriptL j.script j.duration env.scriptResp = .ok gs →
      generateVoiceL gs j.voice env.voiceResp = .ok audio →
      env.pexelsResp (footageQueryL j.template) = .ok { videos := some [] } →
      (processVideoL j env).1.status = .failed ∧
      (processVideoL j env).1.statusMessage = "Error: No stock footage found" ∧
      (processVideoL j env).1.hasAudio = true ∧
      (processVideoL j env).1.audioPath = some ("./temp/" ++ j.id ++ "-audio.mp3") ∧
      (∀ (st : Store JobL) (k : String),
        getAudioL (storeSet st k (processVideoL j env).1) k =
          .ok ("./temp/" ++ j.id ++ "-audio.mp3"))) := by
  constructor
  · intro j env gs audio hs hv hp
    have hres : (processVideoR j env).1 =
        { j with status := .failed,
                 statusMessage := "Error: No video clips found",
                 generatedScript := some gs,
                 audioBuffer := some audio,
                 hasAudio := true,
                 clips := some [] } := by
      simp [processVideoR, hs, hv, fetchStockFootageR, hp, assembleVideoR]
    refine ⟨by rw [hres], by rw [hres], by rw [hres], by rw [hres], ?_⟩
    intro st k
    rw [hres]
    simp [getAudioR, storeGet_set_self]
  · intro j env gs audio hs hv hp
    have hres : (processVideoL j env).1 =
        { j with status := .failed,
                 statusMessage := "Error: No stock footage found",
                 generatedScript := some gs,
                 audioPath := some ("./temp/" ++ j.id ++ "-audio.mp3"),
                 hasAudio := true } := by
      simp [processVideoL, hs, hv, fetchStockFootageL, hp]
    refine ⟨by rw [hres], by rw [hres], by rw [hres], by rw [hres], ?_⟩
    intro st k
    rw [hres]
    simp [getAudioL, storeGet_set_self, tempAudioPath_ne_empty j.id]

/-- Witness for C6 amended: a concrete remote job whose footage search
returns zero results ends failed with the No video clips found message and
its audio is still served by the audio route. -/
theorem claim6_amended_witness :
    (processVideoR
      { id := "j9", status := .queued, statusMessage := "Video job created...",
        inputScript := "coffee", template := none, voice := none, duration := "30s",
        generatedScript := none, hasAudio := false, videoUrl := none, createdAt := 0,
        audioBuffer := none, clips := none }
      { scriptResp := fun _ => .ok "script text",
        voiceResp := fun _ => .ok [1, 2, 3],
        pexelsResp := fun _ => .ok [],
        renderSubmit := fun _ => .err "unused",
        renderPoll := fun _ => { status := "rendering", url := "" } }).1.status =
      Status.failed ∧
    getAudioR (storeSet [] "j9" (processVideoR
      { id := "j9", status := .queued, statusMessage := "Video job created...",
        inputScript := "coffee", template := none, voice := none, duration := "30s",
        generatedScript := none, hasAudio := false, videoUrl := none, createdAt := 0,
        audioBuffer := none, clips := none }
      { scriptResp := fun _ => .ok "script text",
        voiceResp := fun _ => .ok [1, 2, 3],
        pexelsResp := fun _ => .ok [],
        renderSubmit := fun _ => .err "unused",
        renderPoll := fun _ => { status := "rendering", url := "" } }).1) "j9" =
      .ok [1, 2, 3] := by
  have h := claim6_amended.1
    { id := "j9", status := .queued, statusMessage := "Video job created...",
      inputScript := "coffee", template := none, voice := none, duration := "30s",
      generatedScript := none, hasAudio := false, videoUrl := none, createdAt := 0,
      audioBuffer := none, clips := none }
    { scriptResp := fun _ => .ok "script text",
      voiceResp := fun _ => .ok [1, 2, 3],
      pexelsResp := fun _ => .ok [],
      renderSubmit := fun _ => .err "unused",
      renderPoll := fun _ => { status := "rendering", url := "" } }
    "script text" [1, 2, 3] rfl rfl rfl
  exact ⟨h.1, h.2.2.2.2 [] "j9"⟩

/-- The remote processVideo writes one of exactly five status sequences:
a failure right after each of the four stage headers, or the full success
sequence. -/
theorem processVideoR_trace (j : JobR) (env : EnvR) :
    (processVideoR j env).2 = [.generating_script, .failed] ∨
    (processVideoR j env).2 = [.generating_script, .generating_voice, .failed] ∨
    (processVideoR j env).2 =
      [.generating_script, .generating_voice, .fetching_footage, .failed] ∨
    (processVideoR j env).2 =
      [.generating_script, .generating_voice, .fetching_footage,
       .assembling_video, .failed] ∨
    (processVideoR j env).2 =
      [.generating_script, .generating_voice, .fetching_footage,
       .assembling_video, .completed] := by
  rcases hs : generateScriptR j.inputScript j.duration env.scriptResp with m | gs
  · left
    simp [processVideoR, hs]
  · rcases hv : generateVoiceR gs j.voice env.voiceResp with m | audio
    · right; left
      simp [processVideoR, hs, hv]
    · rcases hf : fetchStockFootageR gs env.pexelsResp with m | clips
      · right; right; left
        simp [processVideoR, hs, hv, hf]
      · rcases ha : assembleVideoR clips env.renderSubmit env.renderPoll with m | url
        · right; right; right; left
          simp [processVideoR, hs, hv, hf, ha]
        · right; right; right; right
          simp [processVideoR, hs, hv, hf, ha]

/-- The local processVideo writes one of the same five status sequences. -/
theorem processVideoL_trace (j : JobL) (env : EnvL) :
    (processVideoL j env).2 = [.generating_script, .failed] ∨
    (processVideoL j env).2 = [.generating_script, .generating_voice, .failed] ∨
    (processVideoL j env).2 =
      [.generating_script, .generating_voice, .fetching_footage, .failed] ∨
    (processVideoL j env).2 =
      [.generating_script, .generating_voice, .fetching_footage,
       .assembling_video, .failed] ∨
    (processVideoL j env).2 =
      [.generating_script, .generating_voice, .fetching_footage,
       .assembling_video, .completed] := by
  rcases hs : generateScriptL j.script j.duration env.scriptResp with m | gs
  · left
    simp [processVideoL, hs]
  · rcases hv : generateVoiceL gs j.voice env.voiceResp with m | audio
    · right; left
      simp [processVideoL, hs, hv]
    · rcases hf : fetchStockFootageL j.template (getAudioDuration env.probeVoice) j.id
        env.pexelsResp env.randomPick with m | vp
      · right; right; left
        simp [processVideoL, hs, hv, hf]
      · rcases ha : combineAudioVideo ("./temp/" ++ j.id ++ "-audio.mp3") vp j.id
          env.probeCombine env.ffmpegRun with m | fp
        · right; right; right; left
          simp [processVideoL, hs, hv, hf, ha]
        · right; right; right; right
          simp [processVideoL, hs, hv, hf, ha]

/-- C1: in either assembly variant, the sequence of status values written
for a job — the initial queued/pending write of the create route followed by
every status written by processVideo — is a chain of legal transitions: each
step either moves to the immediate successor in the forward order
queued/pending, generating_script, generating_voice, fetching_footage,
assembling_video, completed, or jumps to failed from a non-terminal state;
no step revisits an earlier state or skips a state. -/
theorem claim1_status_order :
    (∀ (j : JobR) (env : EnvR),
      List.Chain' stepOk (Status.queued :: (processVideoR j env).2)) ∧
    (∀ (j : JobL) (env : EnvL),
      List.Chain' stepOk (Status.pending :: (processVideoL j env).2)) := by
  constructor
  · intro j env
    rcases processVideoR_trace j env with h | h | h | h | h <;> rw [h] <;>
      simp [List.chain'_cons, stepOk, statusIdx]
  · intro j env
    rcases processVideoL_trace j env with h | h | h | h | h <;> rw [h] <;>
      simp [List.chain'_cons, stepOk, statusIdx]

/-- C2: in either variant, if a stage's adapter call throws, the orchestrator
sets the job status to failed with statusMessage Error: followed by the
thrown message, and no later stage runs: every artifact field belonging to a
stage at or after the failing one stays unpopulated on the job built by the
create route. -/
theorem claim2_failure_halts :
    (∀ (jobId : String) (p : ParamsR) (now : Nat) (env : EnvR) (m : String),
      generateScriptR p.script p.duration env.scriptResp = .error m →
      (processVideoR (initJobR jobId p now) env).1.status = .failed ∧
      (processVideoR (initJobR jobId p now) env).1.statusMessage = "Error: " ++ m ∧
      (processVideoR (initJobR jobId p now) env).1.generatedScript = none ∧
      (processVideoR (initJobR jobId p now) env).1.audioBuffer = none ∧
      (processVideoR (initJobR jobId p now) env).1.hasAudio = false ∧
      (processVideoR (initJobR jobId p now) env).1.clips = none ∧
      (processVideoR (initJobR jobId p now) env).1.videoUrl = none) ∧
    (∀ (jobId : String) (p : ParamsR) (now : Nat) (env : EnvR) (gs m : String),
      generateScriptR p.script p.duration env.scriptResp = .ok gs →
      generateVoiceR gs p.voice env.voiceResp = .error m →
      (processVideoR (initJobR jobId p now) env).1.status = .failed ∧
      (processVideoR (initJobR jobId p now) env).1.statusMessage = "Error: " ++ m ∧
      (processVideoR (initJobR jobId p now) env).1.audioBuffer = none ∧
      (processVideoR (initJobR jobId p now) env).1.hasAudio = false ∧
      (processVideoR (initJobR jobId p now) env).1.clips = none ∧
      (processVideoR (initJobR jobId p now) env).1.videoUrl = none) ∧
    (∀ (jobId : String) (p : ParamsR) (now : Nat) (env : EnvR)
        (gs : String) (audio : Audio) (m : String),
      generateScriptR p.script p.duration env.scriptResp = .ok gs →
      generateVoiceR gs p.voice env.voiceResp = .ok audio →
      fetchStockFootageR gs env.pexelsResp = .error m →
      (processVideoR (initJobR jobId p now) env).1.status = .failed ∧
      (processVideoR (initJobR jobId p now) env).1.statusMessage = "Error: " ++ m ∧
      (processVideoR (initJobR jobId p now) env).1.clips = none ∧
      (processVideoR (initJobR jobId p now) env).1.videoUrl = none) ∧
    (∀ (jobId : String) (p : ParamsR) (now : Nat) (env : EnvR)
        (gs : String) (audio : Audio) (clips : List Clip) (m : String),
      generateScriptR p.script p.duration env.scriptResp = .ok gs →
      generateVoiceR gs p.voice env.voiceResp = .ok audio →
      fetchStockFootageR gs env.pexelsResp = .ok clips →
      assembleVideoR clips env.renderSubmit env.renderPoll = .error m →
      (processVideoR (initJobR jobId p now) env).1.status = .failed ∧
      (processVideoR (initJobR jobId p now) env).1.statusMessage = "Error: " ++ m ∧
      (processVideoR (initJobR jobId p now) env).1.videoUrl = none) ∧
    (∀ (jobId : String) (p : ParamsR) (now : Nat) (env : EnvL) (m : String),
      generateScriptL p.script p.duration env.scriptResp = .error m →
      (processVideoL (initJobL jobId p now) env).1.status = .failed ∧
      (processVideoL (initJobL jobId p now) env).1.statusMessage = "Error: " ++ m ∧
      (processVideoL (initJobL jobId p now) env).1.generatedScript = none ∧
      (processVideoL (initJobL jobId p now) env).1.audioPath = none ∧
      (processVideoL (initJobL jobId p now) env).1.hasAudio = false ∧
      (processVideoL (initJobL jobId p now) env).1.footagePath = none ∧
      (processVideoL (initJobL jobId p now) env).1.finalVideoPath = none ∧
      (processVideoL (initJobL jobId p now) env).1.videoUrl = none) ∧
    (∀ (jobId : String) (p : ParamsR) (now : Nat) (env : EnvL) (gs m : String),
      generateScriptL p.script p.duration env.scriptResp = .ok gs →
      generateVoiceL gs p.voice env.voiceResp = .error m →
      (processVideoL (initJobL jobId p now) env).1.status = .failed ∧
      (processVideoL (initJobL jobId p now) env).1.statusMessage = "Error: " ++ m ∧
      (processVideoL (initJobL jobId p now) env).1.audioPath = none ∧
      (processVideoL (initJobL jobId p now) env).1.hasAudio = false ∧
      (processVideoL (initJobL jobId p now) env).1.footagePath = none ∧
      (processVideoL (initJobL jobId p now) env).1.finalVideoPath = none ∧
      (processVideoL (initJobL jobId p now) env).1.videoUrl = none) ∧
    (∀ (jobId : String) (p : ParamsR) (now : Nat) (env : EnvL)
        (gs : String) (audio : Audio) (m : String),
      generateScriptL p.script p.duration env.scriptResp = .ok gs →
      generateVoiceL gs p.voice env.voiceResp = .ok audio →
      fetchStockFootageL p.template (getAudioDuration env.probeVoice) jobId
        env.pexelsResp env.randomPick = .error m →
      (processVideoL (initJobL jobId p now) env).1.status = .failed ∧
      (processVideoL (initJobL jobId p now) env).1.statusMessage = "Error: " ++ m ∧
      (processVideoL (initJobL jobId p now) env).1.footagePath = none ∧
      (processVideoL (initJobL jobId p now) env).1.finalVideoPath = none ∧
      (processVideoL (initJobL jobId p now) env).1.videoUrl = none) ∧
    (∀ (jobId : String) (p : ParamsR) (now : Nat) (env : EnvL)
        (gs : String) (audio : Audio) (vp m : String),
      generateScriptL p.script p.duration env.scriptResp = .ok gs →
      generateVoiceL gs p.voice env.voiceResp = .ok audio →
      fetchStockFootageL p.template (getAudioDuration env.probeVoice) jobId
        env.pexelsResp env.randomPick = .ok vp →
      combineAudioVideo ("./temp/" ++ jobId ++ "-audio.mp3") vp jobId
        env.probeCombine env.ffmpegRun = .error m →
      (processVideoL (initJobL jobId p now) env).1.status = .failed ∧
      (processVideoL (initJobL jobId p now) env).1.statusMessage = "Error: " ++ m ∧
      (processVideoL (initJobL jobId p now) env).1.finalVideoPath = none ∧
      (processVideoL (initJobL jobId p now) env).1.videoUrl = none) := by
  refine ⟨?_, ?_, ?_, ?_, ?_, ?_, ?_, ?_⟩
  · intro jobId p now env m h
    simp [processVideoR, initJobR, h]
  · intro jobId p now env gs m h1 h2
    simp [processVideoR, initJobR, h1, h2]
  · intro jobId p now env gs audio m h1 h2 h3
    simp [processVideoR, initJobR, h1, h2, h3]
  · intro jobId p now env gs audio clips m h1 h2 h3 h4
    simp [processVideoR, initJobR, h1, h2, h3, h4]
  · intro jobId p now env m h
    simp [processVideoL, initJobL, h]
  · intro jobId p now env gs m h1 h2
    simp [processVideoL, initJobL, h1, h2]
  · intro jobId p now env gs audio m h1 h2 h3
    simp [processVideoL, initJobL, h1, h2, h3]
  · intro jobId p now env gs audio vp m h1 h2 h3 h4
    simp [processVideoL, initJobL, h1, h2, h3, h4]

/-- Witness for C2: a failing script provider leaves a concrete remote job
failed with the provider's message and no artifacts. -/
theorem claim2_failure_halts_witness :
    (processVideoR
      (initJobR "j2" { script := "coffee", template := none, voice := none,
                       duration := "30s" } 0)
      { scriptResp := fun _ => .err "rate limited",
        voiceResp := fun _ => .ok [],
        pexelsResp := fun _ => .ok [],
        renderSubmit := fun _ => .err "unused",
        renderPoll := fun _ => { status := "rendering", url := "" } }).1.status =
      Status.failed ∧
    (processVideoR
      (initJobR "j2" { script := "coffee", template := none, voice := none,
                       duration := "30s" } 0)
      { scriptResp := fun _ => .err "rate limited",
        voiceResp := fun _ => .ok [],
        pexelsResp := fun _ => .ok [],
        renderSubmit := fun _ => .err "unused",
        renderPoll := fun _ => { status := "rendering", url := "" } }).1.hasAudio =
      false := by
  have h := claim2_failure_halts.1 "j2"
    { script := "coffee", template := none, voice := none, duration := "30s" } 0
    { scriptResp := fun _ => .err "rate limited",
      voiceResp := fun _ => .ok [],
      pexelsResp := fun _ => .ok [],
      renderSubmit := fun _ => .err "unused",
      renderPoll := fun _ => { status := "rendering", url := "" } }
    "OpenAI error: rate limited" rfl
  exact ⟨h.1, h.2.2.2.2.1⟩

/-- C3: for a fresh job id, the create route of either variant registers a
new job record in the initial state (queued remote, pending local), leaves
all other jobs untouched, and responds with the job id and that initial
status; the response of the full handler is the create route's response,
identical for every pipeline environment — the route never waits on the
pipeline. -/
theorem claim3_create_immediate :
    (∀ (s : Store JobR) (jobId : String) (p : ParamsR) (now : Nat),
      storeGet s jobId = none →
      (createRouteR s jobId p now).2 = { jobId := jobId, status := "queued" } ∧
      storeGet (createRouteR s jobId p now).1 jobId = some (initJobR jobId p now) ∧
      (initJobR jobId p now).status = .queued ∧
      (∀ k, k ≠ jobId → storeGet (createRouteR s jobId p now).1 k = storeGet s k) ∧
      (∀ env env' : EnvR,
        (handleCreateR s jobId p now env).2 = (handleCreateR s jobId p now env').2) ∧
      (∀ env : EnvR,
        (handleCreateR s jobId p now env).2 = (createRouteR s jobId p now).2)) ∧
    (∀ (s : Store JobL) (jobId : String) (p : ParamsR) (now : Nat),
      storeGet s jobId = none →
      (createRouteL s jobId p now).2 = { jobId := jobId, status := "pending" } ∧
      storeGet (createRouteL s jobId p now).1 jobId = some (initJobL jobId p now) ∧
      (initJobL jobId p now).status = .pending ∧
      (∀ k, k ≠ jobId → storeGet (createRouteL s jobId p now).1 k = storeGet s k) ∧
      (∀ env env' : EnvL,
        (handleCreateL s jobId p now env).2 = (handleCreateL s jobId p now env').2) ∧
      (∀ env : EnvL,
        (handleCreateL s jobId p now env).2 = (createRouteL s jobId p now).2)) := by
  constructor
  · intro s jobId p now _h
    exact ⟨rfl, storeGet_set_self s jobId _, rfl,
           fun k hk => storeGet_set_ne s jobId k _ hk,
           fun _ _ => rfl, fun _ => rfl⟩
  · intro s jobId p now _h
    exact ⟨rfl, storeGet_set_self s jobId _, rfl,
           fun k hk => storeGet_set_ne s jobId k _ hk,
           fun _ _ => rfl, fun _ => rfl⟩

/-- Witness for C3: creating a job in an empty store registers it as queued
and responds with the id and queued status. -/
theorem claim3_create_immediate_witness :
    (createRouteR [] "j3" { script := "coffee", template := none, voice := none,
                            duration := "30s" } 0).2 =
      { jobId := "j3", status := "queued" } ∧
    storeGet (createRouteR [] "j3" { script := "coffee", template := none,
                                     voice := none, duration := "30s" } 0).1 "j3" =
      some (initJobR "j3" { script := "coffee", template := none, voice := none,
                            duration := "30s" } 0) := by
  have h := claim3_create_immediate.1 []
    "j3" { script := "coffee", template := none, voice := none, duration := "30s" } 0
    rfl
  exact ⟨h.1, h.2.1⟩

/-- C4: an unknown job id makes every query route of either variant answer
with a 404 error body (never a success value), and the audio and download
routes also answer 404 when the job exists but the corresponding artifact
reference is absent. -/
theorem claim4_notfound :
    (∀ (s : Store JobR) (jobId : String), storeGet s jobId = none →
      getStatusR s jobId = .notFound "Job not found" ∧
      getAudioR s jobId = .notFound "Audio not found" ∧
      getDownloadR s jobId = .notFound "Video not ready") ∧
    (∀ (s : Store JobL) (jobId : String), storeGet s jobId = none →
      getStatusL s jobId = .notFound "Job not found" ∧
      getAudioL s jobId = .notFound "Audio not found" ∧
      getDownloadL s jobId = .notFound "Video not found") ∧
    (∀ (s : Store JobR) (jobId : String) (j : JobR),
      storeGet s jobId = some j → j.audioBuffer = none →
      getAudioR s jobId = .notFound "Audio not found") ∧
    (∀ (s : Store JobR) (jobId : String) (j : JobR),
      storeGet s jobId = some j → j.videoUrl = none →
      getDownloadR s jobId = .notFound "Video not ready") ∧
    (∀ (s : Store JobL) (jobId : String) (j : JobL),
      storeGet s jobId = some j → j.audioPath = none →
      getAudioL s jobId = .notFound "Audio not found") ∧
    (∀ (s : Store JobL) (jobId : String) (j : JobL),
      storeGet s jobId = some j → j.finalVideoPath = none →
      getDownloadL s jobId = .notFound "Video not found") := by
  refine ⟨?_, ?_, ?_, ?_, ?_, ?_⟩
  · intro s jobId h
    exact ⟨by simp [getStatusR, h], by simp [getAudioR, h], by simp [getDownloadR, h]⟩
  · intro s jobId h
    exact ⟨by simp [getStatusL, h], by simp [getAudioL, h], by simp [getDownloadL, h]⟩
  · intro s jobId j h ha
    simp [getAudioR, h, ha]
  · intro s jobId j h hv
    simp [getDownloadR, h, hv]
  · intro s jobId j h ha
    simp [getAudioL, h, ha]
  · intro s jobId j h hv
    simp [getDownloadL, h, hv]

/-- Witness for C4: every query route 404s on an empty store. -/
theorem claim4_notfound_witness :
    getStatusR [] "nope" = .notFound "Job not found" ∧
    getAudioR [] "nope" = .notFound "Audio not found" ∧
    getDownloadR [] "nope" = .notFound "Video not ready" ∧
    getStatusL [] "nope" = .notFound "Job not found" := by
  have h1 := claim4_notfound.1 [] "nope" rfl
  have h2 := claim4_notfound.2.1 [] "nope" rfl
  exact ⟨h1.1, h1.2.1, h1.2.2, h2.1⟩

end TikTap
